import Mathlib

/-!
Verification of the PingJob route layer (src/server/routes.ts).

The route handlers are shallowly embedded as Lean functions. JSON values are
modelled by `JVal`; a JS object is an association list (`JObj`) with JS object
update semantics (updating an existing key keeps its position, a new key is
appended). The data-access collaborator (`storage`) is abstract: each handler
takes the storage operations it calls as function arguments returning
`Except String _`, where `Except.error` models a thrown/rejected promise and
the string is the underlying error message. Responses are modelled as a pair
of the HTTP status code and the JSON body; handlers that matter for
call-counting claims additionally return the list of storage calls they made.
-/

namespace PingJob

/-- A JSON value, as produced by `res.json(...)`. Object field order is the
JS insertion order, which is what the wire format exposes. -/
inductive JVal where
  | str (s : String)
  | num (n : Int)
  | bool (b : Bool)
  | null
  | arr (xs : List JVal)
  | obj (fields : List (String × JVal))

/-- A JS object: ordered association list of fields. -/
abbrev JObj := List (String × JVal)

/-- Field lookup on a JS object (`o[k]`); `none` models `undefined`. -/
def getF : JObj → String → Option JVal
  | [], _ => none
  | p :: rest, k => if p.fst == k then some p.snd else getF rest k

/-- Field update on a JS object (`o[k] = v` or an object-literal override):
an existing key keeps its position, a new key is appended. -/
def setF : JObj → String → JVal → JObj
  | [], k, v => [(k, v)]
  | p :: rest, k, v => if p.fst == k then (k, v) :: rest else p :: setF rest k v

/-- Field lookup through a `JVal` (`v.k`); non-objects have no fields. -/
def jget (v : JVal) (k : String) : Option JVal :=
  match v with
  | JVal.obj fields => getF fields k
  | _ => none

/-- JS truthiness of a value. -/
def truthy : JVal → Bool
  | JVal.str s => s != ""
  | JVal.num n => n != 0
  | JVal.bool b => b
  | JVal.null => false
  | JVal.arr _ => true
  | JVal.obj _ => true

/-- JS truthiness of a possibly-undefined value. -/
def truthyO : Option JVal → Bool
  | some v => truthy v
  | none => false

mutual

/-- JS string coercion `String(v)`, as used by template literals. -/
def jvalToString : JVal → String
  | JVal.str s => s
  | JVal.num n => toString n
  | JVal.bool b => if b then "true" else "false"
  | JVal.null => "null"
  | JVal.arr xs => jvalListToString xs
  | JVal.obj _ => "[object Object]"

/-- JS array-to-string (`Array.prototype.join ","`); null elements print empty. -/
def jvalListToString : List JVal → String
  | [] => ""
  | [JVal.null] => ""
  | [x] => jvalToString x
  | JVal.null :: xs => "," ++ jvalListToString xs
  | x :: xs => jvalToString x ++ "," ++ jvalListToString xs

end

/-- JS string coercion of a possibly-undefined value. -/
def jstrO : Option JVal → String
  | some v => jvalToString v
  | none => "undefined"

/-- Does the JSON body carry a string-valued `message` field? All spec-conforming
error bodies do. -/
def hasMessageString (v : JVal) : Bool :=
  match jget v "message" with
  | some (JVal.str _) => true
  | _ => false

/-! ## JS `parseInt`

`parseInt(s)` (radix unspecified): skip leading whitespace, optional sign,
then either a `0x`/`0X` hexadecimal literal or a leading run of decimal
digits; if no digit follows, the result is `NaN`, modelled by `none`. -/

/-- Whitespace skipped by `parseInt`. -/
def isJsWs (c : Char) : Bool :=
  c == ' ' || c == '\t' || c == '\n' || c == '\r'

/-- JS `String.prototype.trim`: strip leading and trailing whitespace. -/
def jsTrim (s : String) : String :=
  String.mk (((s.toList.dropWhile isJsWs).reverse.dropWhile isJsWs).reverse)

/-- Value of a run of decimal digits. -/
def digitsVal (cs : List Char) : Nat :=
  cs.foldl (fun a c => a * 10 + (c.toNat - 48)) 0

/-- Is `c` a hexadecimal digit? -/
def isHexDigit (c : Char) : Bool :=
  c.isDigit || ('a' ≤ c && c ≤ 'f') || ('A' ≤ c && c ≤ 'F')

/-- Value of one hexadecimal digit. -/
def hexDigitVal (c : Char) : Nat :=
  if c.isDigit then c.toNat - 48
  else if 'a' ≤ c && c ≤ 'f' then c.toNat - 87
  else c.toNat - 55

/-- Value of a run of hexadecimal digits. -/
def hexVal (cs : List Char) : Nat :=
  cs.foldl (fun a c => a * 16 + hexDigitVal c) 0

/-- Decimal tail of `parseInt`: a leading digit run or `NaN`. -/
def parseIntDec (sign : Int) (cs : List Char) : Option Int :=
  let ds := cs.takeWhile Char.isDigit
  if ds.isEmpty then none else some (sign * (digitsVal ds : Int))

/-- JS `parseInt` on a string; `none` models `NaN`. -/
def parseIntJS (s : String) : Option Int :=
  let cs := s.toList.dropWhile isJsWs
  let (sign, rest) :=
    match cs with
    | '-' :: r => ((-1 : Int), r)
    | '+' :: r => ((1 : Int), r)
    | _ => ((1 : Int), cs)
  match rest with
  | '0' :: x :: r2 =>
    if x == 'x' || x == 'X' then
      let hs := r2.takeWhile isHexDigit
      if hs.isEmpty then none else some (sign * (hexVal hs : Int))
    else parseIntDec sign rest
  | _ => parseIntDec sign rest

/-! ## Object lemmas -/

theorem getF_setF_same (o : JObj) (k : String) (v : JVal) :
    getF (setF o k v) k = some v := by
  induction o with
  | nil => simp [setF, getF]
  | cons p rest ih =>
    by_cases h : p.fst == k
    · simp [setF, getF, h]
    · simp only [setF, h, Bool.false_eq_true, if_neg, getF, ih]
      simp [getF, h, ih]

theorem getF_setF_ne (o : JObj) (k j : String) (v : JVal) (h : j ≠ k) :
    getF (setF o k v) j = getF o j := by
  induction o with
  | nil =>
    have hk : (k == j) = false := by
      simp [beq_eq_false_iff_ne]
      exact fun hkj => h hkj.symm
    simp [setF, getF, hk]
  | cons p rest ih =>
    by_cases hp : p.fst == k
    · have hpj : (p.fst == j) = false := by
        have : p.fst = k := by simpa using hp
        simp [beq_eq_false_iff_ne, this]
        exact fun hkj => h hkj.symm
      have hk : (k == j) = false := by
        simp [beq_eq_false_iff_ne]
        exact fun hkj => h hkj.symm
      simp [setF, getF, hp, hpj, hk]
    · by_cases hj : p.fst == j
      · simp [setF, getF, hp, hj]
      · simp [setF, getF, hp, hj, ih]

/-! ## GET /api/search  (routes.ts lines 119-140)

`const query = (req.query.q || req.query.query)`; queries with
`!query || query.trim().length < 3` short-circuit to empty results; otherwise
`storage.searchCompanies(query, 10)` and `storage.searchJobs(query, {}, 10)`
run under `Promise.all` and the response is `{companies, jobs}`. The handler
additionally reports the storage calls it issued. -/

/-- One storage call made by the global-search handler. -/
inductive SCall where
  | searchCompanies (q : String) (lim : Int)
  | searchJobs (q : String) (lim : Int)
deriving DecidableEq, Repr

/-- The effective query string: `req.query.q || req.query.query`. -/
def effQuery (q qp : Option String) : Option String :=
  match q with
  | some s => if s == "" then qp else some s
  | none => qp

/-- The `GET /api/search` handler. `searchC`/`searchJ` are
`storage.searchCompanies` / `storage.searchJobs` (the latter always invoked
with empty filters and limit 10). -/
def handleSearch (searchC : String → Int → Except String (List JVal))
    (searchJ : String → Int → Except String (List JVal))
    (q qp : Option String) : (Nat × JVal) × List SCall :=
  match effQuery q qp with
  | none => ((200, JVal.obj [("companies", JVal.arr []), ("jobs", JVal.arr [])]), [])
  | some s =>
    if (jsTrim s).length < 3 then
      ((200, JVal.obj [("companies", JVal.arr []), ("jobs", JVal.arr [])]), [])
    else
      match searchC s 10, searchJ s 10 with
      | Except.ok cs, Except.ok js =>
        ((200, JVal.obj [("companies", JVal.arr cs), ("jobs", JVal.arr js)]),
         [SCall.searchCompanies s 10, SCall.searchJobs s 10])
      | _, _ =>
        ((500, JVal.obj [("message", JVal.str "Search failed")]),
         [SCall.searchCompanies s 10, SCall.searchJobs s 10])

/-! ## GET /api/companies  (routes.ts lines 318-350)

`const limit = req.query.limit ? parseInt(...) : 0`; a provided query is used
only when `query && query !== 'undefined' && query.length >= 2`; otherwise the
handler falls to the plain listing branches. `parseLimit` returns `none` for
`NaN`; every JS comparison with `NaN` is false. -/

/-- One storage call made by the company-listing handler. -/
inductive CCall where
  | searchCompanies (q : String) (lim : Int)
  | getCompanies (lim : Int)
deriving DecidableEq, Repr

/-- `req.query.limit ? parseInt(req.query.limit) : 0`; `none` models `NaN`. -/
def parseLimit : Option String → Option Int
  | none => some 0
  | some s => if s == "" then some 0 else parseIntJS s

/-- The two non-search branches of `GET /api/companies`: `limit > 0` uses
`min(limit, 50000)`-style capping, otherwise a sample of 100. -/
def companiesListBranch (getC : Int → Except String (List JVal)) (limit : Option Int) :
    (Nat × JVal) × List CCall :=
  match limit with
  | some v =>
    if 0 < v then
      let actualLimit := if 50000 ≤ v then 50000 else v
      match getC actualLimit with
      | Except.ok cs => ((200, JVal.arr cs), [CCall.getCompanies actualLimit])
      | Except.error _ =>
        ((500, JVal.obj [("message", JVal.str "Failed to fetch companies")]),
         [CCall.getCompanies actualLimit])
    else
      match getC 100 with
      | Except.ok cs => ((200, JVal.arr cs), [CCall.getCompanies 100])
      | Except.error _ =>
        ((500, JVal.obj [("message", JVal.str "Failed to fetch companies")]),
         [CCall.getCompanies 100])
  | none =>
    match getC 100 with
    | Except.ok cs => ((200, JVal.arr cs), [CCall.getCompanies 100])
    | Except.error _ =>
      ((500, JVal.obj [("message", JVal.str "Failed to fetch companies")]),
       [CCall.getCompanies 100])

/-- The `GET /api/companies` handler. `searchC` is `storage.searchCompanies`,
`getC` is `storage.getCompanies`; `q`/`lp` are the raw query parameters. -/
def handleGetCompaniesList (searchC : String → Int → Except String (List JVal))
    (getC : Int → Except String (List JVal)) (q lp : Option String) :
    (Nat × JVal) × List CCall :=
  match q with
  | some s =>
    if s != "" && s != "undefined" && decide (2 ≤ s.length) then
      let searchLimit : Int :=
        match parseLimit lp with
        | some v => if 100 < v then min v 1000 else 100
        | none => 100
      match searchC s searchLimit with
      | Except.ok cs => ((200, JVal.arr cs), [CCall.searchCompanies s searchLimit])
      | Except.error _ =>
        ((500, JVal.obj [("message", JVal.str "Failed to fetch companies")]),
         [CCall.searchCompanies s searchLimit])
    else companiesListBranch getC (parseLimit lp)
  | none => companiesListBranch getC (parseLimit lp)

/-! ## GET /api/companies/:id/details  (routes.ts lines 67-89) -/

/-- The strict `job.isActive === true` filter predicate. -/
def isActiveTrue (j : JVal) : Bool :=
  match jget j "isActive" with
  | some (JVal.bool true) => true
  | _ => false

/-- The `GET /api/companies/:id/details` handler: guards `isNaN(companyId)`,
fetches the company jobs, keeps only those with `isActive === true`, fetches
the vendors unfiltered, and responds `{openJobs, vendors}`. -/
def handleCompanyDetails (getJobsByCompany : Int → Except String (List JVal))
    (getClientVendors : Int → Except String (List JVal)) (idParam : String) :
    Nat × JVal :=
  match parseIntJS idParam with
  | none => (400, JVal.obj [("message", JVal.str "Invalid company ID")])
  | some cid =>
    match getJobsByCompany cid with
    | Except.error _ => (500, JVal.obj [("message", JVal.str "Failed to fetch company details")])
    | Except.ok jobs =>
      match getClientVendors cid with
      | Except.error _ => (500, JVal.obj [("message", JVal.str "Failed to fetch company details")])
      | Except.ok vendors =>
        (200, JVal.obj [("openJobs", JVal.arr (jobs.filter isActiveTrue)),
                        ("vendors", JVal.arr vendors)])

/-! ## GET /api/jobs/:id  (routes.ts lines 547-561 and 593-605)

The path is registered twice. Neither registration calls `next()`, so Express
dispatches every matching request to the first one, which performs no `isNaN`
check (the parsed id, `NaN` included, goes straight to `storage.getJob`) and
answers with `{error: ...}` bodies. The second registration (which would
answer `{message: "Job not found"}`) is shadowed. `storage.getJob` receives an
`Option Int` whose `none` models `NaN`. -/

/-- First registration of `GET /api/jobs/:id` (line 547). -/
def handleGetJobFirst (getJob : Option Int → Except String (Option JVal))
    (idParam : String) : Nat × JVal :=
  match getJob (parseIntJS idParam) with
  | Except.error _ => (500, JVal.obj [("error", JVal.str "Failed to fetch job")])
  | Except.ok none => (404, JVal.obj [("error", JVal.str "Job not found")])
  | Except.ok (some j) => (200, j)

/-- Second, shadowed registration of `GET /api/jobs/:id` (line 593). -/
def handleGetJobSecond (getJob : Option Int → Except String (Option JVal))
    (idParam : String) : Nat × JVal :=
  match getJob (parseIntJS idParam) with
  | Except.error _ => (500, JVal.obj [("message", JVal.str "Failed to fetch job")])
  | Except.ok none => (404, JVal.obj [("message", JVal.str "Job not found")])
  | Except.ok (some j) => (200, j)

/-- The registration list for `GET /api/jobs/:id`, in source order. -/
def getJobsIdRegistrations (getJob : Option Int → Except String (Option JVal)) :
    List (String → Nat × JVal) :=
  [handleGetJobFirst getJob, handleGetJobSecond getJob]

/-- Express first-match dispatch for `GET /api/jobs/:id`. -/
def dispatchGetJobsId (getJob : Option Int → Except String (Option JVal))
    (idParam : String) : Nat × JVal :=
  match getJobsIdRegistrations getJob with
  | h :: _ => h idParam
  | [] => (404, JVal.null)

/-! ## GET /api/companies/:id  (routes.ts lines 364-379) -/

/-- The `GET /api/companies/:id` handler: guards `isNaN(id)` with a 400. -/
def handleGetCompaniesId (getCompany : Int → Except String (Option JVal))
    (idParam : String) : Nat × JVal :=
  match parseIntJS idParam with
  | none => (400, JVal.obj [("message", JVal.str "Invalid company ID")])
  | some cid =>
    match getCompany cid with
    | Except.error _ => (500, JVal.obj [("message", JVal.str "Failed to fetch company")])
    | Except.ok none => (404, JVal.obj [("message", JVal.str "Company not found")])
    | Except.ok (some c) => (200, c)

/-! ## DELETE /api/applications/:id  (routes.ts lines 738-747)

No `isNaN` check: the parsed id (possibly `NaN`, modelled `none`) goes
straight to `storage.deleteJobApplication`. -/

/-- The `DELETE /api/applications/:id` handler. -/
def handleDeleteApplication (deleteApp : Option Int → Except String Unit)
    (idParam : String) : Nat × JVal :=
  match deleteApp (parseIntJS idParam) with
  | Except.error _ => (500, JVal.obj [("message", JVal.str "Failed to withdraw application")])
  | Except.ok _ => (200, JVal.obj [("message", JVal.str "Application withdrawn successfully")])

/-! ## GET /api/test-db-connection  (routes.ts lines 92-103)

The catch branch answers `{status: 'error', error: error.message}` — the raw
internal error string, with no `message` field. -/

/-- The `GET /api/test-db-connection` handler; a user row is a `JObj`. -/
def handleTestDb (getUserByEmail : String → Except String (Option JObj)) : Nat × JVal :=
  match getUserByEmail "test@example.com" with
  | Except.error m => (500, JVal.obj [("status", JVal.str "error"), ("error", JVal.str m)])
  | Except.ok r =>
    let emailV : JVal :=
      match r with
      | some u =>
        match getF u "email" with
        | some v => if truthy v then v else JVal.str "not found"
        | none => JVal.str "not found"
      | none => JVal.str "not found"
    (200, JVal.obj [("status", JVal.str "success"),
                    ("userFound", JVal.bool r.isSome),
                    ("userEmail", emailV)])

/-! ## POST /api/experiences  (routes.ts lines 180-190)

The body (with `userId` spread in) goes through `insertExperienceSchema.parse`;
the catch-all branch returns 500 with `{message}` for every thrown error,
a `ZodError` included — there is no 400 path in this handler. -/

/-- Modelled from the spec: `insertExperienceSchema` comes from
`@shared/schema`, which is not under src/. Spec section 2 describes the
validation layer as "schema objects describing the shape of each entity ...
used to reject malformed input", and section 4.3 has validation failures
report "a structured list of field-level problems". An experience entry is
modelled as requiring a `title` and the owning `userId`; a missing required
field is reported by name. -/
def insertExperienceSchemaParse (o : JObj) : Except (List String) JObj :=
  if (getF o "title").isSome && (getF o "userId").isSome then Except.ok o
  else Except.error ((if (getF o "title").isSome then [] else ["title"]) ++
    (if (getF o "userId").isSome then [] else ["userId"]))

/-- The `POST /api/experiences` handler. -/
def handlePostExperiences (addExperience : JObj → Except String JVal)
    (userId : String) (body : JObj) : Nat × JVal :=
  match insertExperienceSchemaParse (setF body "userId" (JVal.str userId)) with
  | Except.error _ => (500, JVal.obj [("message", JVal.str "Failed to add experience")])
  | Except.ok v =>
    match addExperience v with
    | Except.error _ => (500, JVal.obj [("message", JVal.str "Failed to add experience")])
    | Except.ok e => (200, e)

/-! ## POST /api/applications  (routes.ts lines 703-724)

The only create route that catches `ZodError` specially: it answers 400 with
`{message: "Invalid application data", errors}`. The body's `jobId` goes
through `parseInt` first. -/

/-- `parseInt` applied to a JS value, as in `parseInt(req.body.jobId)`:
strings parse, numbers pass through, everything else is `NaN` (`none`). -/
def parseIntJV : Option JVal → Option Int
  | some (JVal.str s) => parseIntJS s
  | some (JVal.num n) => some n
  | _ => none

/-- Is this field present and a number? -/
def isNumV : Option JVal → Bool
  | some (JVal.num _) => true
  | _ => false

/-- Modelled from the spec: `insertJobApplicationSchema` comes from
`@shared/schema`, which is not under src/. Spec section 3: a JobApplication
"links a User (applicant) to a Job"; required fields are modelled as a numeric
`jobId` and an `applicantId`, and the ZodError lists each missing or
non-numeric required field by name. -/
def insertJobApplicationSchemaParse (o : JObj) : Except (List String) JObj :=
  if isNumV (getF o "jobId") && (getF o "applicantId").isSome then Except.ok o
  else Except.error ((if isNumV (getF o "jobId") then [] else ["jobId"]) ++
    (if (getF o "applicantId").isSome then [] else ["applicantId"]))

/-- The validated payload of `POST /api/applications`:
`{...req.body, jobId: parseInt(req.body.jobId), applicantId: userId, resumeUrl}`.
`JVal.null` stands in for the `NaN` a failed `parseInt` produces (both are
rejected by the schema as non-numbers). -/
def postApplicationsData (userId : String) (file : Option String) (body : JObj) : JObj :=
  let jobIdV : JVal :=
    match parseIntJV (getF body "jobId") with
    | some n => JVal.num n
    | none => JVal.null
  let resumeV : JVal :=
    match file with
    | some fn => JVal.str ("/uploads/" ++ fn)
    | none => JVal.null
  setF (setF (setF body "jobId" jobIdV) "applicantId" (JVal.str userId)) "resumeUrl" resumeV

/-- The `POST /api/applications` handler. -/
def handlePostApplications (createApp : JObj → Except String JVal) (userId : String)
    (file : Option String) (body : JObj) : Nat × JVal :=
  match insertJobApplicationSchemaParse (postApplicationsData userId file body) with
  | Except.error errs =>
    (400, JVal.obj [("message", JVal.str "Invalid application data"),
                    ("errors", JVal.arr (errs.map JVal.str))])
  | Except.ok v =>
    match createApp v with
    | Except.error _ => (500, JVal.obj [("message", JVal.str "Failed to create application")])
    | Except.ok a => (200, a)

/-! ## POST /api/jobs  (routes.ts lines 620-654)

`jobData = {...req.body, recruiterId: "admin-krupa",
employmentType: req.body.jobType || "full_time"}`, then when city, state and
country are all truthy, `jobData.location` is overwritten with the template
string; the catch branch answers 500 with
`{message, error: error.message, details: error.errors || []}`. -/

/-- Modelled from the spec: `insertJobSchema` comes from `@shared/schema`,
which is not under src/. Spec section 3: a Job "belongs to a Company, has
type/experience-level/location fields"; required fields are modelled as
`title` and `companyId`, everything else (location included) passes through
unchanged. -/
def insertJobSchemaParse (o : JObj) : Except (List String) JObj :=
  if (getF o "title").isSome && (getF o "companyId").isSome then Except.ok o
  else Except.error ((if (getF o "title").isSome then [] else ["title"]) ++
    (if (getF o "companyId").isSome then [] else ["companyId"]))

/-- `req.body.jobType || "full_time"`. -/
def postJobsEmploymentType (body : JObj) : JVal :=
  match getF body "jobType" with
  | some v => if truthy v then v else JVal.str "full_time"
  | none => JVal.str "full_time"

/-- `{...req.body, recruiterId: "admin-krupa", employmentType: ...}`. -/
def postJobsBase (body : JObj) : JObj :=
  setF (setF body "recruiterId" (JVal.str "admin-krupa")) "employmentType"
    (postJobsEmploymentType body)

/-- The payload handed to `insertJobSchema.parse`; the location template is
applied exactly when `jobData.city && jobData.state && jobData.country`. -/
def postJobsJobData (body : JObj) : JObj :=
  if truthyO (getF (postJobsBase body) "city") && truthyO (getF (postJobsBase body) "state")
      && truthyO (getF (postJobsBase body) "country") then
    setF (postJobsBase body) "location"
      (JVal.str (jstrO (getF (postJobsBase body) "city") ++ ", " ++
        jstrO (getF (postJobsBase body) "state") ++ ", " ++
        jstrO (getF (postJobsBase body) "country")))
  else postJobsBase body

/-- The `POST /api/jobs` handler. On a validation error the `error` field
carries the ZodError's own message and `details` its field list; on a storage
error it carries the storage error message with empty details. -/
def handlePostJobs (createJob : JObj → Except String JVal) (body : JObj) : Nat × JVal :=
  match insertJobSchemaParse (postJobsJobData body) with
  | Except.error errs =>
    (500, JVal.obj [("message", JVal.str "Failed to create job"),
                    ("error", JVal.str "invalid input"),
                    ("details", JVal.arr (errs.map JVal.str))])
  | Except.ok v =>
    match createJob v with
    | Except.error m =>
      (500, JVal.obj [("message", JVal.str "Failed to create job"),
                      ("error", JVal.str m), ("details", JVal.arr [])])
    | Except.ok j => (200, j)

/-! ## PATCH /api/companies/:id/status  (routes.ts lines 421-439)

The route guards `isNaN(companyId)`, then calls
`storage.updateCompanyStatus(companyId, status, approvedBy || userId)` with
the hardcoded test identity `"admin-krupa"` and returns the updated row. -/

/-- A company row, as far as the status route observes it. -/
structure Company where
  id : Int
  name : String
  status : String
  approvedBy : Option String
deriving DecidableEq, Repr

/-- The per-row effect of a status update. -/
def applyStatus (cid : Int) (status approver : String) (c : Company) : Company :=
  if c.id == cid then { c with status := status, approvedBy := some approver } else c

/-- Modelled from the spec: `storage.updateCompanyStatus` lives in
`src/server/storage.ts`, which is not under src/. Spec section 3: a Company
carries "status (pending/approved/rejected)" and the admin transition is "the
only state machine present"; the route returns the updated row. Modelled as an
in-place update of the matching company's `status` and `approvedBy` fields,
returning the new store and the updated row. -/
def updateCompanyStatus (store : List Company) (cid : Int) (status approver : String) :
    List Company × Option Company :=
  (store.map (applyStatus cid status approver),
   (store.find? (fun c => c.id == cid)).map (applyStatus cid status approver))

/-- Serialization of a company row. -/
def companyJ (c : Company) : JVal :=
  JVal.obj [("id", JVal.num c.id), ("name", JVal.str c.name),
    ("status", JVal.str c.status),
    ("approvedBy", match c.approvedBy with | some a => JVal.str a | none => JVal.null)]

/-- The `PATCH /api/companies/:id/status` handler: returns the new store
together with the response. -/
def handlePatchCompanyStatus (store : List Company) (idParam : String)
    (statusBody : String) (approvedByBody : Option String) :
    List Company × (Nat × JVal) :=
  match parseIntJS idParam with
  | none => (store, (400, JVal.obj [("message", JVal.str "Invalid company ID")]))
  | some cid =>
    let approver :=
      match approvedByBody with
      | some a => if a == "" then "admin-krupa" else a
      | none => "admin-krupa"
    let r := updateCompanyStatus store cid statusBody approver
    (r.fst, (200, match r.snd with | some c => companyJ c | none => JVal.null))

/-! ## Concrete storage instances used by witnesses and counterexamples -/

/-- A company-search that finds nothing. -/
def searchCZero : String → Int → Except String (List JVal) := fun _ _ => Except.ok []

/-- A job-search that finds nothing. -/
def searchJZero : String → Int → Except String (List JVal) := fun _ _ => Except.ok []

/-- A one-company search result. -/
def demoCompanyRow : JVal := JVal.obj [("id", JVal.num 7), ("name", JVal.str "Acme")]

/-- A one-job search result. -/
def demoJobRow : JVal := JVal.obj [("id", JVal.num 3), ("title", JVal.str "Dev")]

/-- A company-search returning one row. -/
def searchCOne : String → Int → Except String (List JVal) := fun _ _ => Except.ok [demoCompanyRow]

/-- A job-search returning one row. -/
def searchJOne : String → Int → Except String (List JVal) := fun _ _ => Except.ok [demoJobRow]

/-! ## Claim C5 -/

/-- Claim C5 (confirmed): for every query string whose trimmed length is below
the minimum threshold of 3, `GET /api/search` responds 200 with exactly
`{companies: [], jobs: []}` and issues no storage call — neither
`searchCompanies` nor `searchJobs` is invoked. -/
theorem search_short_query_empty (searchC searchJ : String → Int → Except String (List JVal))
    (q qp : Option String) (s : String)
    (he : effQuery q qp = some s) (hlen : (jsTrim s).length < 3) :
    handleSearch searchC searchJ q qp =
      ((200, JVal.obj [("companies", JVal.arr []), ("jobs", JVal.arr [])]), []) := by
  unfold handleSearch
  rw [he]
  simp [hlen]

/-- Witness for C5: the two-character query "ab" short-circuits. -/
theorem search_short_query_empty_witness :
    handleSearch searchCOne searchJOne (some "ab") none =
      ((200, JVal.obj [("companies", JVal.arr []), ("jobs", JVal.arr [])]), []) :=
  search_short_query_empty searchCOne searchJOne (some "ab") none "ab" rfl (by decide)

/-! ## Claim C6 -/

/-- Claim C6 (confirmed): for every query string meeting the minimum length,
`GET /api/search` responds with exactly the two independently obtained
sub-results, keyed `companies` before `jobs` in the response object, each
list exactly as the storage returned it, after calling each search once with
limit 10. -/
theorem search_merges_results (searchC searchJ : String → Int → Except String (List JVal))
    (q qp : Option String) (s : String) (cs js : List JVal)
    (he : effQuery q qp = some s) (hlen : ¬ (jsTrim s).length < 3)
    (hc : searchC s 10 = Except.ok cs) (hj : searchJ s 10 = Except.ok js) :
    handleSearch searchC searchJ q qp =
      ((200, JVal.obj [("companies", JVal.arr cs), ("jobs", JVal.arr js)]),
       [SCall.searchCompanies s 10, SCall.searchJobs s 10]) := by
  unfold handleSearch
  rw [he]
  simp only [hlen, if_false]
  rw [hc, hj]

/-- Witness for C6: the query "acme" returns the two demo sub-results in
companies-then-jobs order. -/
theorem search_merges_results_witness :
    handleSearch searchCOne searchJOne (some "acme") none =
      ((200, JVal.obj [("companies", JVal.arr [demoCompanyRow]),
                       ("jobs", JVal.arr [demoJobRow])]),
       [SCall.searchCompanies "acme" 10, SCall.searchJobs "acme" 10]) :=
  search_merges_results searchCOne searchJOne (some "acme") none "acme"
    [demoCompanyRow] [demoJobRow] rfl (by decide) rfl rfl

/-! ## Claim C10 -/

/-- Strict-equality characterization of the open-jobs filter. -/
theorem isActiveTrue_iff (j : JVal) :
    isActiveTrue j = true ↔ jget j "isActive" = some (JVal.bool true) := by
  constructor
  · intro hT
    unfold isActiveTrue at hT
    split at hT
    · assumption
    · exact absurd hT (by simp)
  · intro hE
    unfold isActiveTrue
    rw [hE]

/-- Claim C10 (confirmed): for every company id, the `openJobs` field of
`GET /api/companies/:id/details` contains exactly those jobs of the company
whose `isActive` is strictly `true` (jobs with `isActive` false, null, or
absent are excluded), while `vendors` is the unfiltered vendor list. -/
theorem company_details_open_jobs
    (getJobsByCompany getClientVendors : Int → Except String (List JVal))
    (idParam : String) (cid : Int) (jobs vendors : List JVal)
    (hp : parseIntJS idParam = some cid)
    (hjobs : getJobsByCompany cid = Except.ok jobs)
    (hvend : getClientVendors cid = Except.ok vendors) :
    handleCompanyDetails getJobsByCompany getClientVendors idParam =
      (200, JVal.obj [("openJobs", JVal.arr (jobs.filter isActiveTrue)),
                      ("vendors", JVal.arr vendors)]) ∧
    ∀ j, j ∈ jobs.filter isActiveTrue ↔
      (j ∈ jobs ∧ jget j "isActive" = some (JVal.bool true)) := by
  constructor
  · simp only [handleCompanyDetails, hp, hjobs, hvend]
  · intro j
    rw [List.mem_filter, isActiveTrue_iff]

/-- Demo jobs covering isActive true, false, null and absent. -/
def demoJobs : List JVal :=
  [JVal.obj [("id", JVal.num 1), ("isActive", JVal.bool true)],
   JVal.obj [("id", JVal.num 2), ("isActive", JVal.bool false)],
   JVal.obj [("id", JVal.num 3), ("isActive", JVal.null)],
   JVal.obj [("id", JVal.num 4)]]

/-- Demo vendor list. -/
def demoVendors : List JVal := [JVal.obj [("id", JVal.num 9), ("status", JVal.str "pending")]]

/-- Storage returning the demo jobs for any company. -/
def demoJobsStorage : Int → Except String (List JVal) := fun _ => Except.ok demoJobs

/-- Storage returning the demo vendors for any company. -/
def demoVendorsStorage : Int → Except String (List JVal) := fun _ => Except.ok demoVendors

/-- Witness for C10 at company 7 with the demo rows; the membership
equivalence is instantiated at the active demo job. -/
theorem company_details_open_jobs_witness :
    handleCompanyDetails demoJobsStorage demoVendorsStorage "7" =
      (200, JVal.obj [("openJobs", JVal.arr (demoJobs.filter isActiveTrue)),
                      ("vendors", JVal.arr demoVendors)]) ∧
    (JVal.obj [("id", JVal.num 1), ("isActive", JVal.bool true)] ∈ demoJobs.filter isActiveTrue ↔
      (JVal.obj [("id", JVal.num 1), ("isActive", JVal.bool true)] ∈ demoJobs ∧
       jget (JVal.obj [("id", JVal.num 1), ("isActive", JVal.bool true)]) "isActive" =
         some (JVal.bool true))) :=
  ⟨(company_details_open_jobs demoJobsStorage demoVendorsStorage "7" 7 demoJobs demoVendors
      rfl rfl rfl).1,
   (company_details_open_jobs demoJobsStorage demoVendorsStorage "7" 7 demoJobs demoVendors
      rfl rfl rfl).2 _⟩

/-! ## Claim C9 -/

/-- Every call the plain-listing branches make is a `getCompanies` call. -/
theorem companiesListBranch_calls (getC : Int → Except String (List JVal))
    (limit : Option Int) :
    ∀ c ∈ (companiesListBranch getC limit).snd, ∃ n, c = CCall.getCompanies n := by
  intro c hc
  unfold companiesListBranch at hc
  rcases limit with _ | v
  · dsimp only at hc
    rcases hg : getC 100 with m | cs <;> rw [hg] at hc <;> simp at hc <;> exact ⟨100, hc⟩
  · dsimp only at hc
    by_cases h0 : 0 < v
    · rw [if_pos h0] at hc
      rcases hg : getC (if 50000 ≤ v then 50000 else v) with m | cs <;>
        rw [hg] at hc <;> simp at hc <;> exact ⟨_, hc⟩
    · rw [if_neg h0] at hc
      rcases hg : getC 100 with m | cs <;> rw [hg] at hc <;> simp at hc <;> exact ⟨100, hc⟩

/-- Claim C9 (confirmed): when the `q` parameter of `GET /api/companies` is the
literal string "undefined" or shorter than 2 characters, the handler behaves
exactly as if no query had been supplied — it takes the plain listing branches
(`getCompanies` with the given or default limit) and performs no company
search. -/
theorem companies_undefined_query_falls_through
    (searchC : String → Int → Except String (List JVal))
    (getC : Int → Except String (List JVal)) (lp : Option String) (s : String)
    (h : s = "undefined" ∨ s.length < 2) :
    handleGetCompaniesList searchC getC (some s) lp =
      handleGetCompaniesList searchC getC none lp ∧
    ∀ c ∈ (handleGetCompaniesList searchC getC (some s) lp).snd,
      ∃ n, c = CCall.getCompanies n := by
  have hcond : (s != "" && s != "undefined" && decide (2 ≤ s.length)) = false := by
    rcases h with h | h
    · subst h; simp
    · have h2 : ¬ (2 ≤ s.length) := by omega
      simp [h2]
  constructor
  · simp only [handleGetCompaniesList, hcond, Bool.false_eq_true, if_false]
  · intro c hc
    simp only [handleGetCompaniesList, hcond, Bool.false_eq_true, if_false] at hc
    exact companiesListBranch_calls getC (parseLimit lp) c hc

/-- A `getCompanies` returning one demo row for any limit. -/
def getCompaniesDemo : Int → Except String (List JVal) := fun _ => Except.ok [demoCompanyRow]

/-- Witness for C9: `q = "undefined"` with no limit equals the no-query run,
and its single storage call is a `getCompanies` call. -/
theorem companies_undefined_query_falls_through_witness :
    handleGetCompaniesList searchCOne getCompaniesDemo (some "undefined") none =
      handleGetCompaniesList searchCOne getCompaniesDemo none none ∧
    (∃ n, CCall.getCompanies 100 = CCall.getCompanies n) :=
  ⟨(companies_undefined_query_falls_through searchCOne getCompaniesDemo none "undefined"
      (Or.inl rfl)).1,
   (companies_undefined_query_falls_through searchCOne getCompaniesDemo none "undefined"
      (Or.inl rfl)).2 (CCall.getCompanies 100) (by decide)⟩

/-! ## Claim C8 -/

/-- A status update never changes a company's id. -/
theorem applyStatus_id (cid : Int) (st a : String) (c : Company) :
    (applyStatus cid st a c).id = c.id := by
  unfold applyStatus
  split <;> rfl

/-- Applying the same status update twice to a row equals applying it once. -/
theorem applyStatus_idem (cid : Int) (st a : String) (c : Company) :
    applyStatus cid st a (applyStatus cid st a c) = applyStatus cid st a c := by
  unfold applyStatus
  by_cases h : (c.id == cid) = true
  · simp [h]
  · simp [h]

/-- `find?` of the id predicate commutes with the status-update map. -/
theorem find?_map_applyStatus (cid : Int) (st a : String) (l : List Company) :
    (l.map (applyStatus cid st a)).find? (fun c => c.id == cid) =
      (l.find? (fun c => c.id == cid)).map (applyStatus cid st a) := by
  induction l with
  | nil => rfl
  | cons c t ih =>
    by_cases h : (c.id == cid) = true
    · simp [List.find?, applyStatus_id, h]
    · simp [List.find?, applyStatus_id, h, ih]

/-- The modelled storage transition is idempotent: re-running the same status
update on the updated store changes nothing. -/
theorem updateCompanyStatus_idem (store : List Company) (cid : Int) (st a : String) :
    updateCompanyStatus (updateCompanyStatus store cid st a).fst cid st a =
      updateCompanyStatus store cid st a := by
  unfold updateCompanyStatus
  have hmap : ∀ l : List Company,
      (l.map (applyStatus cid st a)).map (applyStatus cid st a) =
        l.map (applyStatus cid st a) := by
    intro l
    induction l with
    | nil => rfl
    | cons c t ih => simp [applyStatus_idem, ih]
  refine Prod.ext (hmap store) ?_
  dsimp only
  rw [find?_map_applyStatus, Option.map_map]
  rcases hf : store.find? (fun c => c.id == cid) with _ | c <;> rw [hf] <;>
    simp [Function.comp, applyStatus_idem]

/-- Claim C8 (confirmed): for a company whose status is "pending", issuing
`PATCH /api/companies/:id/status` with status "approved" and then repeating
the identical call yields the same outcome as issuing it once — the repeated
call does not error (same 200 response, same body) and leaves the store
unchanged. -/
theorem patch_company_status_idempotent (store : List Company) (idParam : String)
    (ab : Option String) (cid : Int)
    (hp : parseIntJS idParam = some cid)
    (_hpend : ∃ c, c ∈ store ∧ c.id = cid ∧ c.status = "pending") :
    handlePatchCompanyStatus (handlePatchCompanyStatus store idParam "approved" ab).fst
        idParam "approved" ab =
      handlePatchCompanyStatus store idParam "approved" ab := by
  unfold handlePatchCompanyStatus
  rw [hp]
  dsimp only
  rw [updateCompanyStatus_idem]

/-- A one-company pending store. -/
def demoStore : List Company := [⟨5, "Acme", "pending", none⟩]

/-- Witness for C8: approving pending company 5 twice equals approving once. -/
theorem patch_company_status_idempotent_witness :
    handlePatchCompanyStatus (handlePatchCompanyStatus demoStore "5" "approved" none).fst
        "5" "approved" none =
      handlePatchCompanyStatus demoStore "5" "approved" none :=
  patch_company_status_idempotent demoStore "5" none 5 (by decide)
    ⟨⟨5, "Acme", "pending", none⟩, by simp [demoStore], rfl, rfl⟩

/-! ## Claim C1 -/

/-- A job store with no rows. -/
def jobStorageEmpty : Option Int → Except String (Option JVal) := fun _ => Except.ok none

/-- An application-delete that fails (models a DB error on a NaN id). -/
def deleteAppFail : Option Int → Except String Unit := fun _ => Except.error "db error"

/-- Counterexample to C1 as stated: the path parameter "abc" is not parseable
as a number, yet `GET /api/jobs/abc` answers 404 (not 400) on an empty store,
and `DELETE /api/applications/abc` answers 500 when the data layer rejects the
NaN id — so a non-numeric path parameter neither guarantees a 400 nor excludes
a 500. -/
theorem numeric_param_counterexample :
    parseIntJS "abc" = none ∧
    (dispatchGetJobsId jobStorageEmpty "abc").1 = 404 ∧
    (handleDeleteApplication deleteAppFail "abc").1 = 500 :=
  ⟨rfl, rfl, rfl⟩

/-- Claim C1 (amended): routes that guard with `isNaN` — `GET
/api/companies/:id` among them — answer 400 with `{message: "Invalid company
ID"}` on a non-numeric path parameter and never reach the data layer, hence
never 500; but `GET /api/jobs/:id` and `DELETE /api/applications/:id` perform
no such check: they pass the NaN id to the data layer and their status is
never 400, whatever the storage does. -/
theorem numeric_param_amended :
    (∀ (getCompany : Int → Except String (Option JVal)) (p : String),
      parseIntJS p = none →
      handleGetCompaniesId getCompany p =
        (400, JVal.obj [("message", JVal.str "Invalid company ID")])) ∧
    (∀ (getJob : Option Int → Except String (Option JVal)) (p : String),
      parseIntJS p = none → (dispatchGetJobsId getJob p).1 ≠ 400) ∧
    (∀ (deleteApp : Option Int → Except String Unit) (p : String),
      parseIntJS p = none → (handleDeleteApplication deleteApp p).1 ≠ 400) := by
  refine ⟨?_, ?_, ?_⟩
  · intro getCompany p hp
    simp only [handleGetCompaniesId, hp]
  · intro getJob p hp
    simp only [dispatchGetJobsId, getJobsIdRegistrations, handleGetJobFirst]
    rcases getJob (parseIntJS p) with m | r
    · dsimp only; omega
    · rcases r with _ | j <;> dsimp only <;> omega
  · intro deleteApp p hp
    simp only [handleDeleteApplication]
    rcases deleteApp (parseIntJS p) with m | u <;> dsimp only <;> omega

/-- A company store with no rows. -/
def companyStorageEmpty : Int → Except String (Option JVal) := fun _ => Except.ok none

/-- Witness for the amended C1 at the non-numeric parameter "abc". -/
theorem numeric_param_amended_witness :
    handleGetCompaniesId companyStorageEmpty "abc" =
      (400, JVal.obj [("message", JVal.str "Invalid company ID")]) ∧
    (dispatchGetJobsId jobStorageEmpty "abc").1 ≠ 400 ∧
    (handleDeleteApplication deleteAppFail "abc").1 ≠ 400 :=
  ⟨numeric_param_amended.1 companyStorageEmpty "abc" rfl,
   numeric_param_amended.2.1 jobStorageEmpty "abc" rfl,
   numeric_param_amended.2.2 deleteAppFail "abc" rfl⟩

/-! ## Claim C4 -/

/-- Counterexample to C4 as stated: `GET /api/jobs/99999` on a store without
job 99999 does answer 404, but its body is `{error: "Job not found"}` — the
first registration of the route handles the request — not
`{message: "Job not found"}`. -/
theorem job_not_found_body_counterexample :
    (dispatchGetJobsId jobStorageEmpty "99999").1 = 404 ∧
    (dispatchGetJobsId jobStorageEmpty "99999").2 ≠
      JVal.obj [("message", JVal.str "Job not found")] ∧
    hasMessageString (dispatchGetJobsId jobStorageEmpty "99999").2 = false :=
  ⟨rfl, fun h => absurd (congrArg hasMessageString h) (by decide), rfl⟩

/-- Claim C4 (amended): `GET /api/jobs/:id` for a nonexistent id returns 404
with body `{error: "Job not found"}`: Express dispatches to the first of the
two registrations of the path, whose not-found body uses the `error` key; the
second registration, which would answer `{message: "Job not found"}`, is
shadowed and never runs. -/
theorem job_not_found_body_amended
    (getJob : Option Int → Except String (Option JVal))
    (h : getJob (some 99999) = Except.ok none) :
    dispatchGetJobsId getJob "99999" =
      (404, JVal.obj [("error", JVal.str "Job not found")]) ∧
    handleGetJobSecond getJob "99999" =
      (404, JVal.obj [("message", JVal.str "Job not found")]) := by
  have hp : parseIntJS "99999" = some 99999 := rfl
  constructor
  · simp only [dispatchGetJobsId, getJobsIdRegistrations, handleGetJobFirst, hp, h]
  · simp only [handleGetJobSecond, hp, h]

/-- Witness for the amended C4 on the empty job store. -/
theorem job_not_found_body_amended_witness :
    dispatchGetJobsId jobStorageEmpty "99999" =
      (404, JVal.obj [("error", JVal.str "Job not found")]) ∧
    handleGetJobSecond jobStorageEmpty "99999" =
      (404, JVal.obj [("message", JVal.str "Job not found")]) :=
  job_not_found_body_amended jobStorageEmpty rfl

/-! ## Claim C2 -/

/-- A storage create that echoes its payload. -/
def addExperienceOk : JObj → Except String JVal := fun o => Except.ok (JVal.obj o)

/-- A storage create for applications that echoes its payload. -/
def createAppOk : JObj → Except String JVal := fun o => Except.ok (JVal.obj o)

/-- Counterexample to C2 as stated: a `POST /api/experiences` body missing the
required `title` field is answered with 500 and a body carrying no `errors`
list — the handler's catch-all turns the validation error into a generic 500,
not the claimed 400. -/
theorem create_missing_field_counterexample :
    handlePostExperiences addExperienceOk "user-1" [] =
      (500, JVal.obj [("message", JVal.str "Failed to add experience")]) ∧
    (handlePostExperiences addExperienceOk "user-1" []).1 ≠ 400 ∧
    jget (handlePostExperiences addExperienceOk "user-1" []).2 "errors" = none :=
  ⟨rfl, by decide, rfl⟩

/-- Claim C2 (amended): only `POST /api/applications` answers a payload with a
missing required field by 400 with an `errors` list naming the field; the
other create routes (`POST /api/experiences` shown here, and likewise
education, skills, companies, jobs, connections, messages, groups) catch the
validation error generically and answer 500 with a bare `{message}` body. -/
theorem create_missing_field_amended :
    (∀ (addExperience : JObj → Except String JVal) (userId : String) (body : JObj),
      getF body "title" = none →
      handlePostExperiences addExperience userId body =
        (500, JVal.obj [("message", JVal.str "Failed to add experience")])) ∧
    (∀ (createApp : JObj → Except String JVal) (userId : String)
        (file : Option String) (body : JObj),
      getF body "jobId" = none →
      handlePostApplications createApp userId file body =
        (400, JVal.obj [("message", JVal.str "Invalid application data"),
                        ("errors", JVal.arr [JVal.str "jobId"])])) := by
  constructor
  · intro addExperience userId body h
    have ht : getF (setF body "userId" (JVal.str userId)) "title" = none := by
      rw [getF_setF_ne body "userId" "title" (JVal.str userId) (by decide), h]
    simp only [handlePostExperiences, insertExperienceSchemaParse, ht]
    simp
  · intro createApp userId file body h
    have hj : getF (postApplicationsData userId file body) "jobId" = some JVal.null := by
      simp only [postApplicationsData, h, parseIntJV]
      rw [getF_setF_ne _ "resumeUrl" "jobId" _ (by decide),
          getF_setF_ne _ "applicantId" "jobId" _ (by decide), getF_setF_same]
    have ha : getF (postApplicationsData userId file body) "applicantId" =
        some (JVal.str userId) := by
      simp only [postApplicationsData]
      rw [getF_setF_ne _ "resumeUrl" "applicantId" _ (by decide), getF_setF_same]
    simp only [handlePostApplications, insertJobApplicationSchemaParse, hj, ha]
    simp [isNumV]

/-- Witness for the amended C2: the empty body misses every required field;
experiences answer 500 with no error list, applications answer 400 naming
`jobId`. -/
theorem create_missing_field_amended_witness :
    handlePostExperiences addExperienceOk "user-1" [] =
      (500, JVal.obj [("message", JVal.str "Failed to add experience")]) ∧
    handlePostApplications createAppOk "user-1" none [] =
      (400, JVal.obj [("message", JVal.str "Invalid application data"),
                      ("errors", JVal.arr [JVal.str "jobId"])]) :=
  ⟨create_missing_field_amended.1 addExperienceOk "user-1" [] rfl,
   create_missing_field_amended.2 createAppOk "user-1" none [] rfl⟩

/-! ## Claim C7 -/

/-- A job create that echoes its payload, exposing what got stored. -/
def echoCreateJob : JObj → Except String JVal := fun o => Except.ok (JVal.obj o)

/-- A job body whose `city` is the empty string. -/
def emptyCityJobBody : JObj :=
  [("title", JVal.str "Engineer"), ("companyId", JVal.num 1),
   ("city", JVal.str ""), ("state", JVal.str "TX"), ("country", JVal.str "US")]

/-- Counterexample to C7 as stated: a body containing city, state and country
fields with `city: ""` (and no `location`) is stored with no `location` at
all — the truthiness test `jobData.city && jobData.state && jobData.country`
fails on the empty string, so the template is never applied and the claimed
`"<city>, <state>, <country>"` value (here `", TX, US"`) does not appear. -/
theorem job_location_counterexample :
    getF emptyCityJobBody "city" = some (JVal.str "") ∧
    getF emptyCityJobBody "location" = none ∧
    getF (postJobsJobData emptyCityJobBody) "location" = none ∧
    handlePostJobs echoCreateJob emptyCityJobBody =
      (200, JVal.obj (postJobsJobData emptyCityJobBody)) ∧
    getF (postJobsJobData emptyCityJobBody) "location" ≠
      some (JVal.str (", " ++ "TX" ++ ", " ++ "US")) :=
  ⟨rfl, rfl, rfl, rfl, fun h => Option.noConfusion
    ((show getF (postJobsJobData emptyCityJobBody) "location" = none from rfl).symm.trans h)⟩

/-- Claim C7 (amended): for every `POST /api/jobs` body with non-empty
(truthy) city, state and country string fields and no explicit location, the
payload handed to `storage.createJob` — and hence the stored job — carries
`location = "<city>, <state>, <country>"`. -/
theorem job_location_amended (body : JObj) (c st co : String)
    (hc : getF body "city" = some (JVal.str c)) (hcne : c ≠ "")
    (hs : getF body "state" = some (JVal.str st)) (hsne : st ≠ "")
    (hco : getF body "country" = some (JVal.str co)) (hcone : co ≠ "")
    (_hloc : getF body "location" = none)
    (ht : (getF body "title").isSome = true)
    (hcid : (getF body "companyId").isSome = true) :
    getF (postJobsJobData body) "location" =
      some (JVal.str (c ++ ", " ++ st ++ ", " ++ co)) ∧
    handlePostJobs echoCreateJob body = (200, JVal.obj (postJobsJobData body)) := by
  have hbase : ∀ k : String, k ≠ "recruiterId" → k ≠ "employmentType" →
      getF (postJobsBase body) k = getF body k := by
    intro k h1 h2
    unfold postJobsBase
    rw [getF_setF_ne _ "employmentType" k _ h2, getF_setF_ne _ "recruiterId" k _ h1]
  have hcity : getF (postJobsBase body) "city" = some (JVal.str c) := by
    rw [hbase "city" (by decide) (by decide), hc]
  have hstate : getF (postJobsBase body) "state" = some (JVal.str st) := by
    rw [hbase "state" (by decide) (by decide), hs]
  have hcountry : getF (postJobsBase body) "country" = some (JVal.str co) := by
    rw [hbase "country" (by decide) (by decide), hco]
  have hcond : (truthyO (getF (postJobsBase body) "city") &&
      truthyO (getF (postJobsBase body) "state") &&
      truthyO (getF (postJobsBase body) "country")) = true := by
    rw [hcity, hstate, hcountry]
    simp [truthyO, truthy, hcne, hsne, hcone]
  have hjd : postJobsJobData body =
      setF (postJobsBase body) "location" (JVal.str (c ++ ", " ++ st ++ ", " ++ co)) := by
    unfold postJobsJobData
    rw [hcond, if_pos rfl, hcity, hstate, hcountry]
    simp [jstrO, jvalToString]
  have htitle : (getF (postJobsJobData body) "title").isSome = true := by
    rw [hjd, getF_setF_ne _ "location" "title" _ (by decide),
        hbase "title" (by decide) (by decide)]
    exact ht
  have hcomp : (getF (postJobsJobData body) "companyId").isSome = true := by
    rw [hjd, getF_setF_ne _ "location" "companyId" _ (by decide),
        hbase "companyId" (by decide) (by decide)]
    exact hcid
  refine ⟨by rw [hjd, getF_setF_same], ?_⟩
  simp only [handlePostJobs, insertJobSchemaParse, htitle, hcomp, echoCreateJob]
  simp

/-- The Austin job body from the spec scenario. -/
def austinJobBody : JObj :=
  [("title", JVal.str "Engineer"), ("companyId", JVal.num 1),
   ("city", JVal.str "Austin"), ("state", JVal.str "TX"), ("country", JVal.str "US")]

/-- Witness for the amended C7: the Austin scenario stores
`location = "Austin, TX, US"`. -/
theorem job_location_amended_witness :
    getF (postJobsJobData austinJobBody) "location" =
      some (JVal.str ("Austin" ++ ", " ++ "TX" ++ ", " ++ "US")) ∧
    handlePostJobs echoCreateJob austinJobBody =
      (200, JVal.obj (postJobsJobData austinJobBody)) :=
  job_location_amended austinJobBody "Austin" "TX" "US" rfl (by decide) rfl (by decide)
    rfl (by decide) rfl rfl rfl

/-! ## Claim C3 -/

/-- A user lookup that fails with a raw driver error. -/
def dbDownUserStorage : String → Except String (Option JObj) :=
  fun _ => Except.error "connection refused"

/-- Counterexample to C3 as stated: when the user lookup throws,
`GET /api/test-db-connection` answers 500 with
`{status: "error", error: "connection refused"}` — the raw internal error
string in an `error` field, and no `message` field at all. -/
theorem error_body_shape_counterexample :
    handleTestDb dbDownUserStorage =
      (500, JVal.obj [("status", JVal.str "error"),
                      ("error", JVal.str "connection refused")]) ∧
    hasMessageString (handleTestDb dbDownUserStorage).2 = false :=
  ⟨rfl, rfl⟩

/-- Every response of the plain-listing branches with status 400 or above
carries a string `message` field. -/
theorem companiesListBranch_message (getC : Int → Except String (List JVal))
    (limit : Option Int) :
    400 ≤ (companiesListBranch getC limit).1.1 →
    hasMessageString (companiesListBranch getC limit).1.2 = true := by
  unfold companiesListBranch
  rcases limit with _ | v
  · dsimp only
    rcases getC 100 with m | cs <;> dsimp only
    · intro _; rfl
    · intro hlt; exact absurd hlt (by omega)
  · dsimp only
    by_cases h0 : 0 < v
    · rw [if_pos h0]
      rcases getC (if 50000 ≤ v then 50000 else v) with m | cs <;> dsimp only
      · intro _; rfl
      · intro hlt; exact absurd hlt (by omega)
    · rw [if_neg h0]
      rcases getC 100 with m | cs <;> dsimp only
      · intro _; rfl
      · intro hlt; exact absurd hlt (by omega)

/-- Claim C3 (amended): across the modelled routes, every error response
(status 400 and above) is a JSON object with a string `message` field —
except the known offenders: `GET /api/test-db-connection` exposes the raw
internal error string under `error` with no `message`, and the dispatched
(first) registration of `GET /api/jobs/:id` uses `{error: ...}` bodies with
no `message`. (`POST /api/jobs` keeps a `message` but additionally leaks the
internal error string in `error`/`details`, so its body is not exactly one of
the two claimed shapes either.) -/
theorem error_body_shape_amended :
    (∀ (g : Int → Except String (Option JVal)) (p : String),
      400 ≤ (handleGetCompaniesId g p).1 →
      hasMessageString (handleGetCompaniesId g p).2 = true) ∧
    (∀ (gj gv : Int → Except String (List JVal)) (p : String),
      400 ≤ (handleCompanyDetails gj gv p).1 →
      hasMessageString (handleCompanyDetails gj gv p).2 = true) ∧
    (∀ (d : Option Int → Except String Unit) (p : String),
      400 ≤ (handleDeleteApplication d p).1 →
      hasMessageString (handleDeleteApplication d p).2 = true) ∧
    (∀ (a : JObj → Except String JVal) (u : String) (b : JObj),
      400 ≤ (handlePostExperiences a u b).1 →
      hasMessageString (handlePostExperiences a u b).2 = true) ∧
    (∀ (ca : JObj → Except String JVal) (u : String) (f : Option String) (b : JObj),
      400 ≤ (handlePostApplications ca u f b).1 →
      hasMessageString (handlePostApplications ca u f b).2 = true) ∧
    (∀ (sc sj : String → Int → Except String (List JVal)) (q qp : Option String),
      400 ≤ (handleSearch sc sj q qp).1.1 →
      hasMessageString (handleSearch sc sj q qp).1.2 = true) ∧
    (∀ (sc : String → Int → Except String (List JVal))
        (gc : Int → Except String (List JVal)) (q lp : Option String),
      400 ≤ (handleGetCompaniesList sc gc q lp).1.1 →
      hasMessageString (handleGetCompaniesList sc gc q lp).1.2 = true) ∧
    (∀ (store : List Company) (p sb : String) (ab : Option String),
      400 ≤ (handlePatchCompanyStatus store p sb ab).2.1 →
      hasMessageString (handlePatchCompanyStatus store p sb ab).2.2 = true) ∧
    (∀ (cj : JObj → Except String JVal) (b : JObj),
      400 ≤ (handlePostJobs cj b).1 →
      hasMessageString (handlePostJobs cj b).2 = true) ∧
    (∀ (gu : String → Except String (Option JObj)),
      400 ≤ (handleTestDb gu).1 →
      hasMessageString (handleTestDb gu).2 = false) ∧
    (∀ (g : Option Int → Except String (Option JVal)) (p : String),
      400 ≤ (dispatchGetJobsId g p).1 →
      hasMessageString (dispatchGetJobsId g p).2 = false) := by
  refine ⟨?_, ?_, ?_, ?_, ?_, ?_, ?_, ?_, ?_, ?_, ?_⟩
  · intro g p
    unfold handleGetCompaniesId
    rcases parseIntJS p with _ | cid <;> dsimp only
    · intro _; rfl
    · rcases g cid with m | r <;> try dsimp only
      · intro _; rfl
      · rcases r with _ | c <;> dsimp only
        · intro _; rfl
        · intro hlt; exact absurd hlt (by omega)
  · intro gj gv p
    unfold handleCompanyDetails
    rcases parseIntJS p with _ | cid <;> dsimp only
    · intro _; rfl
    · rcases gj cid with m | jobs <;> dsimp only
      · intro _; rfl
      · rcases gv cid with m | vendors <;> dsimp only
        · intro _; rfl
        · intro hlt; exact absurd hlt (by omega)
  · intro d p
    unfold handleDeleteApplication
    rcases d (parseIntJS p) with m | u <;> dsimp only
    · intro _; rfl
    · intro hlt; exact absurd hlt (by omega)
  · intro a u b
    unfold handlePostExperiences
    rcases insertExperienceSchemaParse (setF b "userId" (JVal.str u)) with errs | v <;>
      dsimp only
    · intro _; rfl
    · rcases a v with m | e <;> dsimp only
      · intro _; rfl
      · intro hlt; exact absurd hlt (by omega)
  · intro ca u f b
    unfold handlePostApplications
    rcases insertJobApplicationSchemaParse (postApplicationsData u f b) with errs | v <;>
      dsimp only
    · intro _; rfl
    · rcases ca v with m | e <;> dsimp only
      · intro _; rfl
      · intro hlt; exact absurd hlt (by omega)
  · intro sc sj q qp
    unfold handleSearch
    rcases effQuery q qp with _ | s <;> dsimp only
    · intro hlt; exact absurd hlt (by omega)
    · by_cases hl : (jsTrim s).length < 3
      · rw [if_pos hl]
        dsimp only
        intro hlt; exact absurd hlt (by omega)
      · rw [if_neg hl]
        rcases sc s 10 with m | cs <;> rcases sj s 10 with m2 | js <;> dsimp only
        · intro _; rfl
        · intro _; rfl
        · intro _; rfl
        · intro hlt; exact absurd hlt (by omega)
  · intro sc gc q lp
    unfold handleGetCompaniesList
    rcases q with _ | s
    · dsimp only
      exact companiesListBranch_message gc (parseLimit lp)
    · dsimp only
      by_cases hcnd : (s != "" && s != "undefined" && decide (2 ≤ s.length)) = true
      · rw [if_pos hcnd]
        rcases sc s (match parseLimit lp with
          | some v => if 100 < v then min v 1000 else 100
          | none => 100) with m | cs <;> dsimp only
        · intro _; rfl
        · intro hlt; exact absurd hlt (by omega)
      · rw [if_neg hcnd]
        exact companiesListBranch_message gc (parseLimit lp)
  · intro store p sb ab
    unfold handlePatchCompanyStatus
    rcases parseIntJS p with _ | cid <;> dsimp only
    · intro _; rfl
    · intro hlt; exact absurd hlt (by omega)
  · intro cj b
    unfold handlePostJobs
    rcases insertJobSchemaParse (postJobsJobData b) with errs | v <;> dsimp only
    · intro _; rfl
    · rcases cj v with m | j <;> dsimp only
      · intro _; rfl
      · intro hlt; exact absurd hlt (by omega)
  · intro gu
    unfold handleTestDb
    rcases gu "test@example.com" with m | r <;> dsimp only
    · intro _; rfl
    · intro hlt; exact absurd hlt (by omega)
  · intro g p
    simp only [dispatchGetJobsId, getJobsIdRegistrations, handleGetJobFirst]
    rcases g (parseIntJS p) with m | r <;> try dsimp only
    · intro _; rfl
    · rcases r with _ | j <;> dsimp only
      · intro _; rfl
      · intro hlt; exact absurd hlt (by omega)

/-- A failing company search, to exercise the 500 branch of search. -/
def searchCFail : String → Int → Except String (List JVal) := fun _ _ => Except.error "db down"

/-- Witness for the amended C3, exercising a 400 branch with a message, a 500
branch with a message, and the two exempted no-message handlers. -/
theorem error_body_shape_amended_witness :
    hasMessageString (handleGetCompaniesId companyStorageEmpty "abc").2 = true ∧
    hasMessageString (handleSearch searchCFail searchJOne (some "acme") none).1.2 = true ∧
    hasMessageString (handleTestDb dbDownUserStorage).2 = false ∧
    hasMessageString (dispatchGetJobsId jobStorageEmpty "99999").2 = false :=
  ⟨error_body_shape_amended.1 companyStorageEmpty "abc" (by decide),
   error_body_shape_amended.2.2.2.2.2.1 searchCFail searchJOne (some "acme") none (by decide),
   error_body_shape_amended.2.2.2.2.2.2.2.2.2.1 dbDownUserStorage (by decide),
   error_body_shape_amended.2.2.2.2.2.2.2.2.2.2 jobStorageEmpty "99999" (by decide)⟩

end PingJob
